import Mathlib

/-!
# LP8860 LED backlight driver (`src/lp8860/lp8860.cxx`)

A shallow embedding of the driver class `upm::LP8860`.

The driver talks to two external collaborators, the mraa I2C bus and the
power GPIO.  Both are modelled by an oracle `Hal`: every primitive receives the
history of everything that happened so far and answers with the result of the
next call.  The driver object carries that history as a ghost field `log`
(oldest event first), so that "which transactions reached the bus, in which
order and with which outcome" is an ordinary value one can reason about.

C integers are modelled by `Int`; every conversion to `uint8_t` is the explicit
`u8` (reduction modulo 256).
-/

namespace LP8860

/-! ## mraa result codes (enum `mraa_result_t` of the mraa library) -/

abbrev mraa_result_t := Nat

abbrev MRAA_SUCCESS : mraa_result_t := 0
abbrev MRAA_ERROR_INVALID_PARAMETER : mraa_result_t := 4
abbrev MRAA_ERROR_INVALID_RESOURCE : mraa_result_t := 7
abbrev MRAA_ERROR_NO_DATA_AVAILABLE : mraa_result_t := 9

/-! ## Constants of `lp8860.cxx` -/

abbrev MAX_I2C_WRITE_SIZE : Int := 32
abbrev LP8860_I2C_ADDR : Nat := 0x2D
abbrev LP8860_DISP_CL1_BRT_MSB : Nat := 0x00
abbrev LP8860_DISP_CL1_BRT_LSB : Nat := 0x01
abbrev LP8860_DISP_CL1_CURR_MSB : Nat := 0x02
abbrev LP8860_DISP_CL1_CURR_LSB : Nat := 0x03
abbrev LP8860_CL2_BRT_MSB : Nat := 0x04
abbrev LP8860_CL2_BRT_LSB : Nat := 0x05
abbrev LP8860_CL2_CURRENT : Nat := 0x06
abbrev LP8860_CL3_BRT_MSB : Nat := 0x07
abbrev LP8860_CL3_BRT_LSB : Nat := 0x08
abbrev LP8860_CL3_CURRENT : Nat := 0x09
abbrev LP8860_CL4_BRT_MSB : Nat := 0x0a
abbrev LP8860_CL4_BRT_LSB : Nat := 0x0b
abbrev LP8860_CL4_CURRENT : Nat := 0x0c
abbrev LP8860_ID : Nat := 0x12
abbrev LP8860_EEPROM_CNTRL : Nat := 0x19
abbrev LP8860_EEPROM_UNLOCK : Nat := 0x1a
abbrev LP8860_EEPROM_REG_0 : Nat := 0x60
abbrev LP8860_LOCK_EEPROM : Nat := 0x00
abbrev LP8860_LOAD_EEPROM : Nat := 0x01
abbrev LP8860_PROGRAM_EEPROM : Nat := 0x02
abbrev LP8860_EEPROM_CODE_1 : Nat := 0x08
abbrev LP8860_EEPROM_CODE_2 : Nat := 0xba
abbrev LP8860_EEPROM_CODE_3 : Nat := 0xef
abbrev LP8860_INVALID_ID : Nat := 0x00

/-- Conversion of a C `int` to `uint8_t`. -/
def u8 (x : Int) : Nat := (x % 256).toNat

/-! ## The outside world -/

/-- One call into the hardware abstraction layer, together with its outcome. -/
inductive Event where
  | set_log_level (level : Int)
  | i2c_init (bus : Int)
  | i2c_address (addr : Nat) (res : mraa_result_t)
  | i2c_read_byte_data (command : Nat) (res : Int)
  | i2c_write_byte_data (data : Nat) (command : Nat) (res : mraa_result_t)
  | i2c_write_byte (data : Nat) (res : mraa_result_t)
  | i2c_read (length : Int) (count : Int) (data : List Nat)
  | i2c_write (data : List Nat) (res : mraa_result_t)
  | getGpio (pin : Int) (res : mraa_result_t) (level : Int)
  | setGpio (pin : Int) (level : Int) (res : mraa_result_t)
  | usleep (usec : Nat)
  deriving DecidableEq, Repr

/-- The hardware abstraction layer as an oracle: each primitive is given the
history so far and its arguments, and returns what the C function returns.
`i2c_read` returns the byte count together with the bytes it stored in the
caller's buffer.  `uninit i` is the indeterminate byte found at offset `i` of
freshly allocated memory (`new unsigned char[n]`). -/
structure Hal where
  i2c_address : List Event → Nat → mraa_result_t
  i2c_read_byte_data : List Event → Nat → Int
  i2c_write_byte_data : List Event → Nat → Nat → mraa_result_t
  i2c_write_byte : List Event → Nat → mraa_result_t
  i2c_read : List Event → Int → Int × List Nat
  i2c_write : List Event → List Nat → mraa_result_t
  getGpio : List Event → Int → mraa_result_t × Int
  setGpio : List Event → Int → Int → mraa_result_t
  uninit : Nat → Nat

/-! ## The driver object -/

/-- The fields of `class LP8860` (`status`, `pinPower`; the I2C context is the
oracle) and the ghost history `log`. -/
structure Driver where
  status : mraa_result_t
  pinPower : Int
  log : List Event
  deriving DecidableEq, Repr

/-- Append one event to the history. -/
def Driver.emit (s : Driver) (e : Event) : Driver :=
  { s with log := s.log ++ [e] }

/-- `LP8860::isOK` -/
def isOK (s : Driver) : Bool := decide (s.status = MRAA_SUCCESS)

/-- `LP8860::isAvailable`.  The result of `mraa_i2c_read_byte_data` is stored
in the local `uint8_t id`, and the comparison `id == -1` is made after the
integer promotion of `id`. -/
def isAvailable (hal : Hal) (s : Driver) : Bool × Driver :=
  let r0 := hal.i2c_address s.log LP8860_I2C_ADDR
  let s1 := s.emit (.i2c_address LP8860_I2C_ADDR r0)
  let r := hal.i2c_read_byte_data s1.log LP8860_ID
  let s2 := s1.emit (.i2c_read_byte_data LP8860_ID r)
  let id : Nat := u8 r
  if (id : Int) = -1 ∨ id = LP8860_INVALID_ID then (false, s2) else (true, s2)

/-- The constructor `LP8860::LP8860(gpioPower, i2cBus)`; `log0` is the history
of the bus before the object is created. -/
def create (hal : Hal) (gpioPower i2cBus : Int) (log0 : List Event) : Driver :=
  let s0 : Driver := { status := MRAA_ERROR_INVALID_RESOURCE, pinPower := gpioPower, log := log0 }
  let s1 := s0.emit (.set_log_level 7)
  let s2 := s1.emit (.i2c_init i2cBus)
  let r := hal.i2c_address s2.log LP8860_I2C_ADDR
  let s3 := { s2.emit (.i2c_address LP8860_I2C_ADDR r) with status := r }
  if s3.status ≠ MRAA_SUCCESS then s3
  else
    let (avail, s4) := isAvailable hal s3
    if !avail then { s4 with status := MRAA_ERROR_INVALID_RESOURCE }
    else { s4 with status := MRAA_SUCCESS }

/-- `LP8860::i2cWriteByte` -/
def i2cWriteByte (hal : Hal) (s : Driver) (reg value : Int) : Bool × Driver :=
  let s1 :=
    if isOK s then
      let r := hal.i2c_write_byte_data s.log (u8 value) (u8 reg)
      { s.emit (.i2c_write_byte_data (u8 value) (u8 reg) r) with status := r }
    else s
  (isOK s1, s1)

/-- `LP8860::i2cReadByte`; `value` is the content of `*value` before the call,
the `Nat` of the result its content afterwards. -/
def i2cReadByte (hal : Hal) (s : Driver) (reg : Nat) (value : Nat) : Bool × Nat × Driver :=
  let r1 := hal.i2c_write_byte s.log LP8860_I2C_ADDR
  let s1 := s.emit (.i2c_write_byte LP8860_I2C_ADDR r1)
  let r2 := hal.i2c_write_byte s1.log reg
  let s2 := s1.emit (.i2c_write_byte reg r2)
  let rd := hal.i2c_read s2.log 1
  let s3 := s2.emit (.i2c_read 1 rd.1 rd.2)
  (decide (rd.1 = 1), ((rd.2.map (· % 256)).head?).getD value, s3)

/-- The bytes of `buf` after a read that stored `data` (at most `length` bytes)
at its start. -/
def store (buf : List Nat) (length : Int) (data : List Nat) : List Nat :=
  let d := (data.take length.toNat).map (· % 256)
  d ++ buf.drop d.length

/-- `LP8860::i2cWriteBuffer`; `buf` holds at least `length` bytes and `length`
is not negative (`memcpy` copies the first `length` bytes of `buf`). -/
def i2cWriteBuffer (hal : Hal) (s : Driver) (reg : Int) (buf : List Nat) (length : Int) :
    Bool × Driver :=
  let s1 :=
    if length ≤ MAX_I2C_WRITE_SIZE then
      let writeBuf := u8 reg :: buf.take length.toNat
      let r := hal.i2c_write s.log writeBuf
      { s.emit (.i2c_write writeBuf r) with status := r }
    else { s with status := MRAA_ERROR_INVALID_PARAMETER }
  (isOK s1, s1)

/-- `LP8860::i2cReadBuffer`; returns the buffer content after the call. -/
def i2cReadBuffer (hal : Hal) (s : Driver) (reg : Int) (buf : List Nat) (length : Int) :
    Bool × List Nat × Driver :=
  let r := hal.i2c_write_byte s.log (u8 reg)
  let s1 := { s.emit (.i2c_write_byte (u8 reg) r) with status := r }
  if isOK s1 then
    let rd := hal.i2c_read s1.log length
    let s2 := s1.emit (.i2c_read length rd.1 rd.2)
    let s3 := if rd.1 ≠ length then { s2 with status := MRAA_ERROR_NO_DATA_AVAILABLE } else s2
    (isOK s3, store buf length rd.2, s3)
  else (isOK s1, buf, s1)

/-- `LP8860::getBrightnessRange`: the result and the contents of `*percentMin`
and `*percentMax` after the call. -/
def getBrightnessRange : Bool × Int × Int := (true, 0, 100)

/-- `LP8860::isPowered` -/
def isPowered (hal : Hal) (s : Driver) : Bool × Driver :=
  let g := hal.getGpio s.log s.pinPower
  let s1 := s.emit (.getGpio s.pinPower g.1 g.2)
  if g.1 = MRAA_SUCCESS then (decide (g.2 = 1), s1) else (false, s1)

/-- `LP8860::getBrightness`; `percent` is the content of `*percent` before the
call.  The result is `none` when the integer division has a zero divisor
(undefined behaviour in C++). -/
def getBrightness (hal : Hal) (s : Driver) (percent : Int) : Option (Bool × Int × Driver) :=
  let (ok1, msb, s1) := i2cReadByte hal s LP8860_DISP_CL1_BRT_MSB 0
  if ok1 then
    let (ok2, lsb, s2) := i2cReadByte hal s1 LP8860_DISP_CL1_BRT_LSB 0
    if ok2 then
      let v : Int := Int.lor ((msb : Int) <<< 8) (lsb : Int)
      if v = 0 then none
      else some (true, Int.tdiv (100 * 0xFFFF) v, s2)
    else some (false, percent, s2)
  else some (false, percent, s1)

/-- `LP8860::setBrightness` -/
def setBrightness (hal : Hal) (s : Driver) (dutyPercent : Int) : Bool × Driver :=
  let value : Int := Int.tdiv (0xFFFF * dutyPercent) 100
  let msb : Int := value >>> 8
  let lsb : Int := Int.land value 0xFF
  let s := (i2cWriteByte hal s LP8860_DISP_CL1_BRT_MSB msb).2
  let s := (i2cWriteByte hal s LP8860_DISP_CL1_BRT_LSB lsb).2
  let value : Int := Int.tdiv (0x1FFF * dutyPercent) 100
  let msb : Int := value >>> 8
  let lsb : Int := Int.land value 0xFF
  let s := (i2cWriteByte hal s LP8860_CL2_BRT_MSB msb).2
  let s := (i2cWriteByte hal s LP8860_CL2_BRT_LSB lsb).2
  let s := (i2cWriteByte hal s LP8860_CL3_BRT_MSB msb).2
  let s := (i2cWriteByte hal s LP8860_CL3_BRT_LSB lsb).2
  let s := (i2cWriteByte hal s LP8860_CL4_BRT_MSB msb).2
  let s := (i2cWriteByte hal s LP8860_CL4_BRT_LSB lsb).2
  (isOK s, s)

/-- The local array `eepromInitTable` of `loadEEPROM`. -/
def eepromInitTable : List Nat :=
  [0xEF, 0xFF, 0xDC, 0xAE, 0x5F, 0xE5, 0xF2, 0x77,
   0x77, 0x71, 0x3F, 0xB7, 0x17, 0xEF, 0xB0, 0x87,
   0xCF, 0x72, 0xC5, 0xDE, 0x35, 0x06, 0xDE, 0xFF,
   0x3E]

/-- The local constant `eepromTableSize` of `loadEEPROM`. -/
abbrev eepromTableSize : Nat := 0x19

/-- The content of `new unsigned char[n]` before anything is stored in it. -/
def freshBuffer (hal : Hal) (n : Nat) : List Nat :=
  (List.range n).map (fun i => hal.uninit i % 256)

/-- The first part of `loadEEPROM`: the load command, the delay and the
read-back of the 25 bytes.  Returns the content of `buf`. -/
def loadEEPROM_readBack (hal : Hal) (s : Driver) : List Nat × Driver :=
  let buf := freshBuffer hal (eepromTableSize + 1)
  let s := (i2cWriteByte hal s LP8860_EEPROM_CNTRL LP8860_LOAD_EEPROM).2
  let s := s.emit (.usleep 100000)
  let (_, buf, s) := i2cReadBuffer hal s LP8860_EEPROM_REG_0 buf eepromTableSize
  (buf, s)

/-- The body of the `if (memcmp(...) != 0)` of `loadEEPROM`. -/
def loadEEPROM_program (hal : Hal) (s : Driver) : Driver :=
  let s := (i2cWriteByte hal s LP8860_EEPROM_UNLOCK LP8860_EEPROM_CODE_1).2
  let s := (i2cWriteByte hal s LP8860_EEPROM_UNLOCK LP8860_EEPROM_CODE_2).2
  let s := (i2cWriteByte hal s LP8860_EEPROM_UNLOCK LP8860_EEPROM_CODE_3).2
  let s := (i2cWriteBuffer hal s LP8860_EEPROM_REG_0 eepromInitTable eepromTableSize).2
  let s := (i2cWriteByte hal s LP8860_EEPROM_CNTRL LP8860_PROGRAM_EEPROM).2
  let s := s.emit (.usleep 200000)
  let s := (i2cWriteByte hal s LP8860_EEPROM_CNTRL 0).2
  let s := (i2cWriteByte hal s LP8860_EEPROM_UNLOCK LP8860_LOCK_EEPROM).2
  s

/-- `LP8860::loadEEPROM`; `memcmp(eepromInitTable, buf, eepromTableSize) != 0`
compares the first 25 bytes of `buf` with the table. -/
def loadEEPROM (hal : Hal) (s : Driver) : Bool × Driver :=
  let (buf, s) := loadEEPROM_readBack hal s
  let s := if buf.take eepromTableSize ≠ eepromInitTable then loadEEPROM_program hal s else s
  (isOK s, s)

/-- `LP8860::allowMaxCurrent` -/
def allowMaxCurrent (hal : Hal) (s : Driver) : Bool × Driver :=
  let s := (i2cWriteByte hal s LP8860_DISP_CL1_CURR_MSB 0x0F).2
  let s := (i2cWriteByte hal s LP8860_DISP_CL1_CURR_LSB 0xFF).2
  let s := (i2cWriteByte hal s LP8860_CL2_CURRENT 0xFF).2
  let s := (i2cWriteByte hal s LP8860_CL3_CURRENT 0xFF).2
  let s := (i2cWriteByte hal s LP8860_CL4_CURRENT 0xFF).2
  (isOK s, s)

/-- `LP8860::setPowerOn` -/
def setPowerOn (hal : Hal) (s : Driver) : Bool × Driver :=
  let (powered, s) := isPowered hal s
  if !powered then
    let r := hal.setGpio s.log s.pinPower 1
    let s := s.emit (.setGpio s.pinPower 1 r)
    if r ≠ MRAA_SUCCESS then
      (false, { s with status := MRAA_ERROR_INVALID_RESOURCE })
    else
      let s := (setBrightness hal s 0).2
      let s := (loadEEPROM hal s).2
      let s := (allowMaxCurrent hal s).2
      (isOK s, s)
  else (isOK s, s)

/-- `LP8860::setPowerOff` -/
def setPowerOff (hal : Hal) (s : Driver) : Bool × Driver :=
  let r := hal.setGpio s.log s.pinPower 0
  (decide (r = MRAA_SUCCESS), s.emit (.setGpio s.pinPower 0 r))

/-! ## Observations on the history -/

/-- The sequence of `i2cWriteByte` calls `ws` (pairs `(reg, value)`), run one
after the other as the statements of a function body are. -/
def writeSeq (hal : Hal) (s : Driver) (ws : List (Int × Int)) : Driver :=
  ws.foldl (fun s w => (i2cWriteByte hal s w.1 w.2).2) s

/-- The eight `(reg, value)` pairs of `setBrightness`, in program order. -/
def brightnessWrites (dutyPercent : Int) : List (Int × Int) :=
  let v1 : Int := Int.tdiv (0xFFFF * dutyPercent) 100
  let v2 : Int := Int.tdiv (0x1FFF * dutyPercent) 100
  [(LP8860_DISP_CL1_BRT_MSB, v1 >>> 8), (LP8860_DISP_CL1_BRT_LSB, Int.land v1 0xFF),
   (LP8860_CL2_BRT_MSB, v2 >>> 8), (LP8860_CL2_BRT_LSB, Int.land v2 0xFF),
   (LP8860_CL3_BRT_MSB, v2 >>> 8), (LP8860_CL3_BRT_LSB, Int.land v2 0xFF),
   (LP8860_CL4_BRT_MSB, v2 >>> 8), (LP8860_CL4_BRT_LSB, Int.land v2 0xFF)]

/-- The five `(reg, value)` pairs of `allowMaxCurrent`, in program order. -/
def maxCurrentWrites : List (Int × Int) :=
  [(LP8860_DISP_CL1_CURR_MSB, 0x0F), (LP8860_DISP_CL1_CURR_LSB, 0xFF),
   (LP8860_CL2_CURRENT, 0xFF), (LP8860_CL3_CURRENT, 0xFF), (LP8860_CL4_CURRENT, 0xFF)]

/-- The byte register `reg` of the chip as the history determines it: the data
of the last successful `i2c_write_byte_data` addressed to `reg`. -/
def regValue (log : List Event) (reg : Nat) : Option Nat :=
  log.foldl
    (fun acc e =>
      match e with
      | .i2c_write_byte_data d c r => if c = reg ∧ r = MRAA_SUCCESS then some d else acc
      | _ => acc)
    none

/-- The 16-bit value held by the register pair `(msbReg, lsbReg)`. -/
def regPair (log : List Event) (msbReg lsbReg : Nat) : Option Nat :=
  match regValue log msbReg, regValue log lsbReg with
  | some m, some l => some (m * 256 + l)
  | _, _ => none

/-- Whether an event belongs to the EEPROM programming sequence: a byte written
to the unlock register, a block write, or the program command written to the
control register. -/
def isProgrammingEvent : Event → Bool
  | .i2c_write_byte_data d c _ =>
      c == LP8860_EEPROM_UNLOCK || (c == LP8860_EEPROM_CNTRL && d == LP8860_PROGRAM_EEPROM)
  | .i2c_write _ _ => true
  | _ => false

/-- Whether an event writes one of the three unlock codes to the unlock
register. -/
def isUnlockCodeEvent : Event → Bool
  | .i2c_write_byte_data d c _ =>
      c == LP8860_EEPROM_UNLOCK &&
        (d == LP8860_EEPROM_CODE_1 || d == LP8860_EEPROM_CODE_2 || d == LP8860_EEPROM_CODE_3)
  | _ => false

/-- The events of a complete programming pass in which every write succeeds, in
program order: three unlock bytes, the table, the program command, the delay,
the clearing of the control register and the lock. -/
def programmingEvents : List Event :=
  [.i2c_write_byte_data LP8860_EEPROM_CODE_1 LP8860_EEPROM_UNLOCK MRAA_SUCCESS,
   .i2c_write_byte_data LP8860_EEPROM_CODE_2 LP8860_EEPROM_UNLOCK MRAA_SUCCESS,
   .i2c_write_byte_data LP8860_EEPROM_CODE_3 LP8860_EEPROM_UNLOCK MRAA_SUCCESS,
   .i2c_write (LP8860_EEPROM_REG_0 :: eepromInitTable) MRAA_SUCCESS,
   .i2c_write_byte_data LP8860_PROGRAM_EEPROM LP8860_EEPROM_CNTRL MRAA_SUCCESS,
   .usleep 200000,
   .i2c_write_byte_data 0 LP8860_EEPROM_CNTRL MRAA_SUCCESS,
   .i2c_write_byte_data LP8860_LOCK_EEPROM LP8860_EEPROM_UNLOCK MRAA_SUCCESS]

/-- The events of `allowMaxCurrent` when every write succeeds. -/
def maxCurrentEvents : List Event :=
  [.i2c_write_byte_data 0x0F LP8860_DISP_CL1_CURR_MSB MRAA_SUCCESS,
   .i2c_write_byte_data 0xFF LP8860_DISP_CL1_CURR_LSB MRAA_SUCCESS,
   .i2c_write_byte_data 0xFF LP8860_CL2_CURRENT MRAA_SUCCESS,
   .i2c_write_byte_data 0xFF LP8860_CL3_CURRENT MRAA_SUCCESS,
   .i2c_write_byte_data 0xFF LP8860_CL4_CURRENT MRAA_SUCCESS]

/-- Whether an event is a bus transaction and, if so, whether it succeeded:
a status result is a success when it is `MRAA_SUCCESS`, a byte read when it is
not -1, a block read when it returned as many bytes as were asked for. -/
def txOutcome : Event → Option Bool
  | .i2c_address _ r => some (decide (r = MRAA_SUCCESS))
  | .i2c_read_byte_data _ r => some (decide (r ≠ -1))
  | .i2c_write_byte_data _ _ r => some (decide (r = MRAA_SUCCESS))
  | .i2c_write_byte _ r => some (decide (r = MRAA_SUCCESS))
  | .i2c_read length count _ => some (decide (count = length))
  | .i2c_write _ r => some (decide (r = MRAA_SUCCESS))
  | _ => none

/-- The outcome of the most recent bus transaction of a history, if any. -/
def lastTx (log : List Event) : Option Bool :=
  log.foldl (fun acc e => match txOutcome e with | some b => some b | none => acc) none

/-- The status of the object is Success iff the last transaction attempted on
the bus succeeded. -/
def statusReflectsBus (s : Driver) : Bool :=
  decide (s.status = MRAA_SUCCESS) == (lastTx s.log == some true)

/-! ## Sample environments -/

/-- A healthy board: every call succeeds, the chip identifies itself with 0x12,
the EEPROM already holds the reference table, the power pin reads low. -/
def halGood : Hal where
  i2c_address _ _ := MRAA_SUCCESS
  i2c_read_byte_data _ _ := 0x12
  i2c_write_byte_data _ _ _ := MRAA_SUCCESS
  i2c_write_byte _ _ := MRAA_SUCCESS
  i2c_read _ n := (n, eepromInitTable.take n.toNat)
  i2c_write _ _ := MRAA_SUCCESS
  getGpio _ _ := (MRAA_SUCCESS, 0)
  setGpio _ _ _ := MRAA_SUCCESS
  uninit _ := 0

/-- A driver object in the state the constructor leaves on a healthy board,
with an empty history. -/
def drvOk : Driver := { status := MRAA_SUCCESS, pinPower := 5, log := [] }

/-- A driver object whose last bus operation failed. -/
def drvFailed : Driver := { status := MRAA_ERROR_NO_DATA_AVAILABLE, pinPower := 5, log := [] }

/-- A board on which the third register write (and every later one) is
refused, everything else as on `halGood`. -/
def halThirdWriteFails : Hal :=
  { halGood with
    i2c_write_byte_data := fun h _ _ => if h.length < 2 then MRAA_SUCCESS else MRAA_ERROR_INVALID_RESOURCE }

/-- A board whose power pin already reads high. -/
def halPowered : Hal :=
  { halGood with getGpio := fun _ _ => (MRAA_SUCCESS, 1) }

/-- A board on which the read of the ID register fails: `mraa_i2c_read_byte_data`
returns its failure value -1. -/
def halIdReadFails : Hal :=
  { halGood with i2c_read_byte_data := fun _ _ => -1 }

/-- A board without a chip behind the address: the ID register reads 0x00. -/
def halNoChip : Hal :=
  { halGood with i2c_read_byte_data := fun _ _ => 0x00 }

/-- A board on which `mraa_i2c_address` is refused. -/
def halNoAddress : Hal :=
  { halGood with i2c_address := fun _ _ => MRAA_ERROR_INVALID_RESOURCE }

/-- A board whose channel-1 brightness registers both read 0x00, the value
`setBrightness 0` stores there. -/
def halZeroBrightness : Hal :=
  { halGood with i2c_read := fun _ n => (n, List.replicate n.toNat 0) }

/-- A board on which every block read comes up one byte short, the bytes
delivered being zero. -/
def halShortRead : Hal :=
  { halGood with i2c_read := fun _ n => (n - 1, List.replicate (n - 1).toNat 0) }

/-- A board whose EEPROM reads back as zeros (not yet programmed). -/
def halBlankEeprom : Hal :=
  { halGood with i2c_read := fun _ n => (n, List.replicate n.toNat 0) }

/-- A board whose EEPROM reads back as zeros and which refuses block writes. -/
def halBlockWriteFails : Hal :=
  { halBlankEeprom with i2c_write := fun _ _ => MRAA_ERROR_INVALID_RESOURCE }

/-! ## Lemmas on sequences of register writes -/

theorem isOK_iff (s : Driver) : isOK s = true ↔ s.status = MRAA_SUCCESS := by
  simp [isOK]

theorem i2cWriteByte_failed (hal : Hal) (s : Driver) (reg value : Int)
    (h : s.status ≠ MRAA_SUCCESS) : i2cWriteByte hal s reg value = (false, s) := by
  simp [i2cWriteByte, isOK, h]

theorem writeSeq_failed (hal : Hal) (s : Driver) (ws : List (Int × Int))
    (h : s.status ≠ MRAA_SUCCESS) : writeSeq hal s ws = s := by
  induction ws with
  | nil => rfl
  | cons w ws ih =>
    show writeSeq hal (i2cWriteByte hal s w.1 w.2).2 ws = s
    rw [i2cWriteByte_failed hal s _ _ h]
    exact ih

theorem writeSeq_append (hal : Hal) (s : Driver) (ws vs : List (Int × Int)) :
    writeSeq hal s (ws ++ vs) = writeSeq hal (writeSeq hal s ws) vs := by
  simp [writeSeq, List.foldl_append]

theorem writeSeq_ok (hal : Hal) (hbus : ∀ h d c, hal.i2c_write_byte_data h d c = MRAA_SUCCESS)
    (ws : List (Int × Int)) (s : Driver) (hs : s.status = MRAA_SUCCESS) :
    writeSeq hal s ws =
      { s with log := s.log ++ ws.map (fun w => .i2c_write_byte_data (u8 w.2) (u8 w.1) MRAA_SUCCESS) } := by
  induction ws generalizing s with
  | nil => simp [writeSeq]
  | cons w ws ih =>
    show writeSeq hal (i2cWriteByte hal s w.1 w.2).2 ws = _
    have h1 : (i2cWriteByte hal s w.1 w.2).2 =
        { s with log := s.log ++ [.i2c_write_byte_data (u8 w.2) (u8 w.1) MRAA_SUCCESS] } := by
      cases s
      simp_all [i2cWriteByte, isOK, Driver.emit]
    rw [h1, ih _ (by simpa using hs)]
    simp

theorem setBrightness_eq (hal : Hal) (s : Driver) (p : Int) :
    setBrightness hal s p =
      (isOK (writeSeq hal s (brightnessWrites p)), writeSeq hal s (brightnessWrites p)) := rfl

theorem allowMaxCurrent_eq (hal : Hal) (s : Driver) :
    allowMaxCurrent hal s =
      (isOK (writeSeq hal s maxCurrentWrites), writeSeq hal s maxCurrentWrites) := rfl

/-! ## Arithmetic of the brightness values -/

theorem brightness_arith (p : Int) (h0 : 0 ≤ p) (h100 : p ≤ 100) (k : Int)
    (hk : k = 0xFFFF ∨ k = 0x1FFF) :
    Int.tdiv (k * p) 100 = k * p / 100 ∧
    (0 : Int) ≤ (Int.tdiv (k * p) 100 >>> 8) ∧ (Int.tdiv (k * p) 100 >>> 8) < (256 : Int) ∧
    0 ≤ Int.land (Int.tdiv (k * p) 100) 0xFF ∧ Int.land (Int.tdiv (k * p) 100) 0xFF < 256 ∧
    (Int.tdiv (k * p) 100 >>> 8) * 256 + Int.land (Int.tdiv (k * p) 100) 0xFF = k * p / 100 := by
  rcases hk with rfl | rfl <;> interval_cases p <;> decide

theorem u8_of_byte (x : Int) (h0 : 0 ≤ x) (h : x < 256) : ((u8 x : Nat) : Int) = x := by
  unfold u8
  rw [Int.emod_eq_of_lt h0 h]
  exact Int.toNat_of_nonneg h0

theorem u8_regs :
    u8 0 = 0 ∧ u8 1 = 1 ∧ u8 2 = 2 ∧ u8 3 = 3 ∧ u8 4 = 4 ∧ u8 5 = 5 ∧ u8 6 = 6 ∧ u8 7 = 7 ∧
    u8 8 = 8 ∧ u8 9 = 9 ∧ u8 10 = 10 ∧ u8 11 = 11 ∧ u8 12 = 12 ∧ u8 15 = 15 ∧ u8 255 = 255 ∧
    u8 25 = 25 ∧ u8 26 = 26 ∧ u8 96 = 96 ∧ u8 186 = 186 ∧ u8 239 = 239 := by
  decide

/-! ## Lemmas on `loadEEPROM` -/

theorem i2cWriteByte_log (hal : Hal) (s : Driver) (reg value : Int) :
    ∃ l, (i2cWriteByte hal s reg value).2.log = s.log ++ l ∧
      ∀ e ∈ l, ∃ r, e = .i2c_write_byte_data (u8 value) (u8 reg) r := by
  by_cases h : s.status = MRAA_SUCCESS
  · exact ⟨[.i2c_write_byte_data (u8 value) (u8 reg)
        (hal.i2c_write_byte_data s.log (u8 value) (u8 reg))],
      by simp [i2cWriteByte, isOK, h, Driver.emit], by simp⟩
  · exact ⟨[], by simp [i2cWriteByte_failed hal s reg value h], by simp⟩

theorem loadEEPROM_readBack_log (hal : Hal) (s : Driver) :
    ∃ evs, (loadEEPROM_readBack hal s).2.log = s.log ++ evs ∧
      ∀ e ∈ evs, isProgrammingEvent e = false := by
  obtain ⟨-, u1, -, -, -, -, -, -, -, -, -, -, -, -, -, u25, -, u96, -, -⟩ := u8_regs
  by_cases h : s.status = MRAA_SUCCESS <;>
    by_cases h2 : hal.i2c_write_byte
        ((i2cWriteByte hal s LP8860_EEPROM_CNTRL LP8860_LOAD_EEPROM).2.log ++ [.usleep 100000])
        (u8 LP8860_EEPROM_REG_0) = MRAA_SUCCESS <;>
    simp [i2cWriteByte, isOK, h, Driver.emit, u1, u25, u96] at h2 <;>
    simp [loadEEPROM_readBack, i2cWriteByte, i2cReadBuffer, isOK, h, h2, Driver.emit, u1, u25, u96,
      apply_ite Driver.log, isProgrammingEvent]

theorem loadEEPROM_program_ok (hal : Hal) (t : Driver) (ht : t.status = MRAA_SUCCESS)
    (hb : ∀ h d c, hal.i2c_write_byte_data h d c = MRAA_SUCCESS)
    (hw : ∀ h b, hal.i2c_write h b = MRAA_SUCCESS) :
    (loadEEPROM_program hal t).log = t.log ++ programmingEvents := by
  obtain ⟨u0, u1, u2, -, -, -, -, -, u8', -, -, -, -, -, -, u25, u26, u96, u186, u239⟩ := u8_regs
  have hm : (25 : Int) ≤ MAX_I2C_WRITE_SIZE := by decide
  simp [loadEEPROM_program, i2cWriteByte, i2cWriteBuffer, isOK, ht, hb, hw, Driver.emit,
    programmingEvents, u0, u1, u2, u8', u25, u26, u96, u186, u239, eepromInitTable, hm]

theorem loadEEPROM_program_failed (hal : Hal) (t : Driver) (ht : t.status ≠ MRAA_SUCCESS) :
    ∃ evs, (loadEEPROM_program hal t).log = t.log ++ evs ∧
      ∀ e ∈ evs, isUnlockCodeEvent e = false := by
  obtain ⟨u0, -, u2, -, -, -, -, -, -, -, -, -, -, -, -, u25, u26, u96, -, -⟩ := u8_regs
  have hb : (i2cWriteBuffer hal t LP8860_EEPROM_REG_0 eepromInitTable eepromTableSize).2.log
      = t.log ++ [.i2c_write (LP8860_EEPROM_REG_0 :: eepromInitTable)
          (hal.i2c_write t.log (LP8860_EEPROM_REG_0 :: eepromInitTable))] := by
    have hm : (25 : Int) ≤ MAX_I2C_WRITE_SIZE := by decide
    simp [i2cWriteBuffer, Driver.emit, u96, eepromInitTable, hm]
  obtain ⟨l1, h1, m1⟩ := i2cWriteByte_log hal
    (i2cWriteBuffer hal t LP8860_EEPROM_REG_0 eepromInitTable eepromTableSize).2
    LP8860_EEPROM_CNTRL LP8860_PROGRAM_EEPROM
  obtain ⟨l2, h2, m2⟩ := i2cWriteByte_log hal
    ((i2cWriteByte hal (i2cWriteBuffer hal t LP8860_EEPROM_REG_0 eepromInitTable
      eepromTableSize).2 LP8860_EEPROM_CNTRL LP8860_PROGRAM_EEPROM).2.emit (.usleep 200000))
    LP8860_EEPROM_CNTRL 0
  obtain ⟨l3, h3, m3⟩ := i2cWriteByte_log hal
    (i2cWriteByte hal ((i2cWriteByte hal (i2cWriteBuffer hal t LP8860_EEPROM_REG_0 eepromInitTable
      eepromTableSize).2 LP8860_EEPROM_CNTRL LP8860_PROGRAM_EEPROM).2.emit (.usleep 200000))
    LP8860_EEPROM_CNTRL 0).2 LP8860_EEPROM_UNLOCK LP8860_LOCK_EEPROM
  refine ⟨[.i2c_write (LP8860_EEPROM_REG_0 :: eepromInitTable)
      (hal.i2c_write t.log (LP8860_EEPROM_REG_0 :: eepromInitTable))]
      ++ l1 ++ [.usleep 200000] ++ l2 ++ l3, ?_, ?_⟩
  · unfold loadEEPROM_program
    simp only [i2cWriteByte_failed hal t _ _ ht]
    rw [h3, h2]
    simp only [Driver.emit]
    rw [h1, hb]
    simp
  · intro e he
    simp only [List.mem_append, List.mem_singleton] at he
    rcases he with (((rfl | he) | rfl) | he) | he
    · rfl
    · obtain ⟨r, rfl⟩ := m1 e he
      simp [isUnlockCodeEvent, u2, u25]
    · rfl
    · obtain ⟨r, rfl⟩ := m2 e he
      simp [isUnlockCodeEvent, u0, u25]
    · obtain ⟨r, rfl⟩ := m3 e he
      simp [isUnlockCodeEvent, u0, u26]

/-! ## Lemmas on the status invariant -/

theorem lastTx_snoc (l : List Event) (e : Event) :
    lastTx (l ++ [e]) = match txOutcome e with
      | some b => some b
      | none => lastTx l := by
  simp [lastTx, List.foldl_append]

theorem inv_i2cWriteByte_attempt (hal : Hal) (s : Driver) (reg value : Int)
    (h : s.status = MRAA_SUCCESS) : statusReflectsBus (i2cWriteByte hal s reg value).2 = true := by
  simp [statusReflectsBus, i2cWriteByte, isOK, h, Driver.emit, lastTx_snoc, txOutcome]

theorem inv_i2cWriteByte (hal : Hal) (s : Driver) (reg value : Int)
    (h : statusReflectsBus s = true) : statusReflectsBus (i2cWriteByte hal s reg value).2 = true := by
  by_cases hs : s.status = MRAA_SUCCESS
  · exact inv_i2cWriteByte_attempt hal s reg value hs
  · rw [i2cWriteByte_failed hal s reg value hs]; exact h

theorem inv_writeSeq (hal : Hal) (ws : List (Int × Int)) (s : Driver)
    (h : statusReflectsBus s = true) : statusReflectsBus (writeSeq hal s ws) = true := by
  induction ws generalizing s with
  | nil => exact h
  | cons w ws ih => exact ih _ (inv_i2cWriteByte hal s w.1 w.2 h)

theorem inv_setBrightness (hal : Hal) (s : Driver) (p : Int)
    (h : statusReflectsBus s = true) : statusReflectsBus (setBrightness hal s p).2 = true := by
  have h1 := inv_writeSeq hal (brightnessWrites p) s h
  simp only [setBrightness_eq]
  exact h1

theorem inv_allowMaxCurrent (hal : Hal) (s : Driver)
    (h : statusReflectsBus s = true) : statusReflectsBus (allowMaxCurrent hal s).2 = true := by
  have h1 := inv_writeSeq hal maxCurrentWrites s h
  simp only [allowMaxCurrent_eq]
  exact h1

theorem inv_usleep (s : Driver) (n : Nat) (h : statusReflectsBus s = true) :
    statusReflectsBus (s.emit (.usleep n)) = true := by
  simpa [statusReflectsBus, Driver.emit, lastTx_snoc, txOutcome] using h

theorem inv_i2cWriteBuffer (hal : Hal) (s : Driver) (reg : Int) (buf : List Nat) (length : Int)
    (h : length ≤ MAX_I2C_WRITE_SIZE) :
    statusReflectsBus (i2cWriteBuffer hal s reg buf length).2 = true := by
  simp [statusReflectsBus, i2cWriteBuffer, h, Driver.emit, lastTx_snoc, txOutcome]

theorem inv_i2cReadBuffer (hal : Hal) (s : Driver) (reg : Int) (buf : List Nat) (length : Int) :
    statusReflectsBus (i2cReadBuffer hal s reg buf length).2.2 = true := by
  by_cases h1 : hal.i2c_write_byte s.log (u8 reg) = MRAA_SUCCESS
  · by_cases h2 :
        (hal.i2c_read (s.log ++ [.i2c_write_byte (u8 reg) MRAA_SUCCESS]) length).1 = length
    · simp [statusReflectsBus, i2cReadBuffer, isOK, h1, h2, Driver.emit, lastTx,
        List.foldl_append, txOutcome]
    · simp [statusReflectsBus, i2cReadBuffer, isOK, h1, h2, Driver.emit, lastTx,
        List.foldl_append, txOutcome]
  · simp [statusReflectsBus, i2cReadBuffer, isOK, h1, Driver.emit, lastTx_snoc, txOutcome]

theorem inv_loadEEPROM (hal : Hal) (s : Driver) : statusReflectsBus (loadEEPROM hal s).2 = true := by
  have hrb : statusReflectsBus (loadEEPROM_readBack hal s).2 = true :=
    inv_i2cReadBuffer hal _ _ _ _
  unfold loadEEPROM
  dsimp only
  split
  · unfold loadEEPROM_program
    exact inv_i2cWriteByte _ _ _ _ (inv_i2cWriteByte _ _ _ _ (inv_usleep _ _
      (inv_i2cWriteByte _ _ _ _ (inv_i2cWriteBuffer _ _ _ _ _ (by decide)))))
  · exact hrb

/-! ## Claims -/

/-- C1: on a driver whose status is Success and a bus on which every byte
write succeeds, `setBrightness percent` with `0 ≤ percent ≤ 100` issues its eight
register writes, after which the channel-1 pair (0x00, 0x01) holds
`0xFFFF * percent / 100` and the pairs of channels 2, 3, 4 hold
`0x1FFF * percent / 100`; the value is the integer quotient, less than 1 below
the exact rational, the MSB register holds `value >> 8` (a byte) and the LSB
register holds `value & 0xFF`. -/
theorem setBrightness_registers (hal : Hal) (s : Driver) (percent : Int)
    (hs : s.status = MRAA_SUCCESS)
    (hbus : ∀ h d c, hal.i2c_write_byte_data h d c = MRAA_SUCCESS)
    (h0 : 0 ≤ percent) (h100 : percent ≤ 100) :
    (setBrightness hal s percent).1 = true ∧
    (∀ v1 v2 : Int, v1 = 0xFFFF * percent / 100 → v2 = 0x1FFF * percent / 100 →
      (100 * v1 ≤ 0xFFFF * percent ∧ 0xFFFF * percent < 100 * (v1 + 1)) ∧
      (100 * v2 ≤ 0x1FFF * percent ∧ 0x1FFF * percent < 100 * (v2 + 1)) ∧
      ((0 : Int) ≤ (v1 >>> 8) ∧ (v1 >>> 8) < (256 : Int)) ∧
      ((0 : Int) ≤ (v2 >>> 8) ∧ (v2 >>> 8) < (256 : Int)) ∧
      (∀ m l : Nat, (m, l) ∈ [(LP8860_DISP_CL1_BRT_MSB, LP8860_DISP_CL1_BRT_LSB)] →
        regValue (setBrightness hal s percent).2.log m = some (v1 >>> 8).toNat ∧
        regValue (setBrightness hal s percent).2.log l = some (Int.land v1 0xFF).toNat ∧
        (regPair (setBrightness hal s percent).2.log m l).map Int.ofNat = some v1) ∧
      (∀ m l : Nat, (m, l) ∈ [(LP8860_CL2_BRT_MSB, LP8860_CL2_BRT_LSB),
            (LP8860_CL3_BRT_MSB, LP8860_CL3_BRT_LSB), (LP8860_CL4_BRT_MSB, LP8860_CL4_BRT_LSB)] →
        regValue (setBrightness hal s percent).2.log m = some (v2 >>> 8).toNat ∧
        regValue (setBrightness hal s percent).2.log l = some (Int.land v2 0xFF).toNat ∧
        (regPair (setBrightness hal s percent).2.log m l).map Int.ofNat = some v2)) := by
  obtain ⟨e1, a1, a2, a3, a4, a5⟩ := brightness_arith percent h0 h100 0xFFFF (Or.inl rfl)
  obtain ⟨e2, b1, b2, b3, b4, b5⟩ := brightness_arith percent h0 h100 0x1FFF (Or.inr rfl)
  have hlog := writeSeq_ok hal hbus (brightnessWrites percent) s hs
  rw [setBrightness_eq, hlog]
  refine ⟨by simp [isOK, hs], ?_⟩
  rintro v1 v2 rfl rfl
  obtain ⟨u0, u1, -, -, u4, u5, -, u7, u8', -, u10, u11, -⟩ := u8_regs
  rw [← e1, ← e2]
  have c1 : u8 (Int.tdiv (0xFFFF * percent) 100 >>> 8)
      = (Int.tdiv (0xFFFF * percent) 100 >>> 8).toNat := by
    apply Int.ofNat_inj.mp; rw [u8_of_byte _ a1 a2]; exact (Int.toNat_of_nonneg a1).symm
  have c2 : u8 (Int.land (Int.tdiv (0xFFFF * percent) 100) 0xFF)
      = (Int.land (Int.tdiv (0xFFFF * percent) 100) 0xFF).toNat := by
    apply Int.ofNat_inj.mp; rw [u8_of_byte _ a3 a4]; exact (Int.toNat_of_nonneg a3).symm
  have c3 : u8 (Int.tdiv (0x1FFF * percent) 100 >>> 8)
      = (Int.tdiv (0x1FFF * percent) 100 >>> 8).toNat := by
    apply Int.ofNat_inj.mp; rw [u8_of_byte _ b1 b2]; exact (Int.toNat_of_nonneg b1).symm
  have c4 : u8 (Int.land (Int.tdiv (0x1FFF * percent) 100) 0xFF)
      = (Int.land (Int.tdiv (0x1FFF * percent) 100) 0xFF).toNat := by
    apply Int.ofNat_inj.mp; rw [u8_of_byte _ b3 b4]; exact (Int.toNat_of_nonneg b3).symm
  have d1 : ((Int.tdiv (0xFFFF * percent) 100 >>> 8).toNat : Int) * 256
      + ((Int.land (Int.tdiv (0xFFFF * percent) 100) 0xFF).toNat : Int)
      = Int.tdiv (0xFFFF * percent) 100 := by
    rw [Int.toNat_of_nonneg a1, Int.toNat_of_nonneg a3, a5, e1]
  have d2 : ((Int.tdiv (0x1FFF * percent) 100 >>> 8).toNat : Int) * 256
      + ((Int.land (Int.tdiv (0x1FFF * percent) 100) 0xFF).toNat : Int)
      = Int.tdiv (0x1FFF * percent) 100 := by
    rw [Int.toNat_of_nonneg b1, Int.toNat_of_nonneg b3, b5, e2]
  refine ⟨?_, ?_, ⟨a1, a2⟩, ⟨b1, b2⟩, ?_, ?_⟩
  · rw [e1]; constructor <;> omega
  · rw [e2]; constructor <;> omega
  · intro m l hml
    simp only [List.mem_singleton, Prod.mk.injEq] at hml
    obtain ⟨rfl, rfl⟩ := hml
    simp [brightnessWrites, regValue, regPair, List.foldl_append, c1, c2, c3, c4,
        u0, u1, u4, u5, u7, u8', u10, u11]
    rw [sup_eq_left.mpr a1, sup_eq_left.mpr a3]
    exact a5.trans e1.symm
  · intro m l hml
    simp only [List.mem_cons, List.mem_singleton, Prod.mk.injEq, List.not_mem_nil, or_false] at hml
    rcases hml with ⟨rfl, rfl⟩ | ⟨rfl, rfl⟩ | ⟨rfl, rfl⟩ <;>
      simp [brightnessWrites, regValue, regPair, List.foldl_append, c1, c2, c3, c4,
        u0, u1, u4, u5, u7, u8', u10, u11] <;>
      (rw [sup_eq_left.mpr b1, sup_eq_left.mpr b3]; exact b5.trans e2.symm)

/-- Witness of C1 on the healthy board at 50 percent: the channel-1 pair holds
32767 and the channel-2 pair holds 4095. -/
theorem setBrightness_registers_witness :
    drvOk.status = MRAA_SUCCESS ∧
    (∀ h d c, halGood.i2c_write_byte_data h d c = MRAA_SUCCESS) ∧
    ((0 : Int) ≤ 50 ∧ (50 : Int) ≤ 100) ∧
    (setBrightness halGood drvOk 50).1 = true ∧
    (regPair (setBrightness halGood drvOk 50).2.log
        LP8860_DISP_CL1_BRT_MSB LP8860_DISP_CL1_BRT_LSB).map Int.ofNat = some 32767 ∧
    (regPair (setBrightness halGood drvOk 50).2.log
        LP8860_CL2_BRT_MSB LP8860_CL2_BRT_LSB).map Int.ofNat = some 4095 :=
  have h := setBrightness_registers halGood drvOk 50 rfl (fun _ _ _ => rfl)
    (by decide) (by decide)
  ⟨rfl, fun _ _ _ => rfl, ⟨by decide, by decide⟩, h.1,
    ((h.2 32767 4095 (by decide) (by decide)).2.2.2.2.1 _ _ (List.mem_singleton.mpr rfl)).2.2,
    ((h.2 32767 4095 (by decide) (by decide)).2.2.2.2.2 _ _ (List.mem_cons_self _ _)).2.2⟩

/-- C5: when the power GPIO reads level 1, `setPowerOn` only performs that GPIO
read: the history gains the `getGpio` event and nothing else (no GPIO write, no
bus transaction), the status is unchanged and the result is `isOK`. -/
theorem setPowerOn_already_powered (hal : Hal) (s : Driver)
    (h : hal.getGpio s.log s.pinPower = (MRAA_SUCCESS, 1)) :
    (setPowerOn hal s).2.log = s.log ++ [.getGpio s.pinPower MRAA_SUCCESS 1] ∧
    (setPowerOn hal s).2.status = s.status ∧
    (setPowerOn hal s).2.pinPower = s.pinPower ∧
    ((setPowerOn hal s).1 = true ↔ s.status = MRAA_SUCCESS) := by
  simp [setPowerOn, isPowered, h, Driver.emit, isOK]

/-- Witness of C5 on a board whose power pin reads high. -/
theorem setPowerOn_already_powered_witness :
    halPowered.getGpio drvOk.log drvOk.pinPower = (MRAA_SUCCESS, 1) ∧
    (setPowerOn halPowered drvOk).2.log = [.getGpio 5 MRAA_SUCCESS 1] ∧
    (setPowerOn halPowered drvOk).2.status = MRAA_SUCCESS :=
  ⟨rfl, (setPowerOn_already_powered halPowered drvOk rfl).1,
    (setPowerOn_already_powered halPowered drvOk rfl).2.1⟩

/-- C8: `i2cWriteBuffer` with a payload of more than 32 bytes issues no bus
write, sets the status to InvalidParameter and returns false; with a payload of
at most 32 bytes it issues exactly one `i2c_write` of `length + 1` bytes, the
register address byte followed by the payload, sets the status to the result of
that write and returns true iff the write succeeded. -/
theorem i2cWriteBuffer_limit (hal : Hal) (s : Driver) (reg : Int) (buf : List Nat) :
    (32 < buf.length →
      i2cWriteBuffer hal s reg buf buf.length
        = (false, { s with status := MRAA_ERROR_INVALID_PARAMETER })) ∧
    (buf.length ≤ 32 →
      (i2cWriteBuffer hal s reg buf buf.length).2.log
        = s.log ++ [.i2c_write (u8 reg :: buf) (hal.i2c_write s.log (u8 reg :: buf))] ∧
      (u8 reg :: buf).length = buf.length + 1 ∧
      (0 ≤ reg → reg < 256 → (u8 reg : Int) = reg) ∧
      (i2cWriteBuffer hal s reg buf buf.length).2.status = hal.i2c_write s.log (u8 reg :: buf) ∧
      ((i2cWriteBuffer hal s reg buf buf.length).1 = true
        ↔ hal.i2c_write s.log (u8 reg :: buf) = MRAA_SUCCESS)) := by
  constructor
  · intro h
    have h' : ¬ ((buf.length : Int) ≤ 32) := by omega
    simp [i2cWriteBuffer, h', isOK]
  · intro h
    have h' : (buf.length : Int) ≤ 32 := by omega
    simp [i2cWriteBuffer, h', isOK, Driver.emit]
    exact u8_of_byte reg

/-- Witness of C8: a 33-byte payload is refused without a bus write, a 2-byte
payload is sent as one 3-byte write. -/
theorem i2cWriteBuffer_limit_witness :
    (32 < (List.replicate 33 7).length ∧
      i2cWriteBuffer halGood drvOk 0x60 (List.replicate 33 7) (List.replicate 33 7).length
        = (false, { drvOk with status := MRAA_ERROR_INVALID_PARAMETER })) ∧
    ([1, 2].length ≤ 32 ∧
      (i2cWriteBuffer halGood drvOk 0x60 [1, 2] ([1, 2] : List Nat).length).2.log
        = drvOk.log ++ [.i2c_write (u8 0x60 :: [1, 2])
            (halGood.i2c_write drvOk.log (u8 0x60 :: [1, 2]))]) :=
  ⟨⟨by decide, (i2cWriteBuffer_limit halGood drvOk 0x60 (List.replicate 33 7)).1 (by decide)⟩,
    ⟨by decide, ((i2cWriteBuffer_limit halGood drvOk 0x60 [1, 2]).2 (by decide)).1⟩⟩

/-- C9: when address configuration succeeds, construction ends with status
Success (`isOK` true) if the ID register reads 0x12 and with status
InvalidResource (`isOK` false) if it reads 0x00; when address configuration
fails, construction ends in a failed state and the history holds no probe of
the device (it ends with the refused `i2c_address` call). -/
theorem create_status (hal : Hal) (gpioPower i2cBus : Int) (log0 : List Event) :
    (hal.i2c_address (log0 ++ [.set_log_level 7, .i2c_init i2cBus]) LP8860_I2C_ADDR = MRAA_SUCCESS →
      (∀ h, hal.i2c_read_byte_data h LP8860_ID = 0x12) →
      (create hal gpioPower i2cBus log0).status = MRAA_SUCCESS ∧
      isOK (create hal gpioPower i2cBus log0) = true) ∧
    (hal.i2c_address (log0 ++ [.set_log_level 7, .i2c_init i2cBus]) LP8860_I2C_ADDR = MRAA_SUCCESS →
      (∀ h, hal.i2c_read_byte_data h LP8860_ID = 0x00) →
      (create hal gpioPower i2cBus log0).status = MRAA_ERROR_INVALID_RESOURCE ∧
      isOK (create hal gpioPower i2cBus log0) = false) ∧
    (hal.i2c_address (log0 ++ [.set_log_level 7, .i2c_init i2cBus]) LP8860_I2C_ADDR ≠ MRAA_SUCCESS →
      (create hal gpioPower i2cBus log0).status ≠ MRAA_SUCCESS ∧
      isOK (create hal gpioPower i2cBus log0) = false ∧
      (create hal gpioPower i2cBus log0).log
        = log0 ++ [.set_log_level 7, .i2c_init i2cBus,
            .i2c_address LP8860_I2C_ADDR
              (hal.i2c_address (log0 ++ [.set_log_level 7, .i2c_init i2cBus]) LP8860_I2C_ADDR)]) := by
  have hu : u8 0x12 = 18 ∧ u8 0 = 0 := by decide
  refine ⟨fun ha hid => ?_, fun ha hid => ?_, fun ha => ?_⟩
  · simp [create, isAvailable, Driver.emit, isOK, ha, hid, hu.1]
  · simp [create, isAvailable, Driver.emit, isOK, ha, hid, hu.2]
  · simp [create, Driver.emit, isOK, ha]

/-- Witness of C9 on three boards: a healthy one, one whose ID register reads
0x00 and one that refuses the address. -/
theorem create_status_witness :
    (create halGood 5 0 []).status = MRAA_SUCCESS ∧
    (create halNoChip 5 0 []).status = MRAA_ERROR_INVALID_RESOURCE ∧
    (create halNoAddress 5 0 []).log
      = [.set_log_level 7, .i2c_init 0, .i2c_address LP8860_I2C_ADDR MRAA_ERROR_INVALID_RESOURCE] :=
  ⟨((create_status halGood 5 0 []).1 rfl (fun _ => rfl)).1,
    ((create_status halNoChip 5 0 []).2.1 rfl (fun _ => rfl)).1,
    ((create_status halNoAddress 5 0 []).2.2 (by decide)).2.2⟩

/-- C2: `isAvailable` returns true exactly when the byte kept in `uint8_t id` is
not 0x00; in particular, on a board whose ID-register read returns the failure
value -1, it returns true: the value kept is 255, which is neither -1 after
promotion nor 0x00. -/
theorem isAvailable_read_failure :
    (∀ (hal : Hal) (s : Driver),
      (isAvailable hal s).1 = decide (u8 (hal.i2c_read_byte_data
        (s.log ++ [.i2c_address LP8860_I2C_ADDR (hal.i2c_address s.log LP8860_I2C_ADDR)])
        LP8860_ID) ≠ LP8860_INVALID_ID)) ∧
    halIdReadFails.i2c_read_byte_data
        (drvOk.log ++ [.i2c_address LP8860_I2C_ADDR MRAA_SUCCESS]) LP8860_ID = -1 ∧
    (isAvailable halIdReadFails drvOk).1 = true := by
  refine ⟨fun hal s => ?_, by decide, by decide⟩
  unfold isAvailable
  dsimp only
  have hneg : ∀ n : Nat, ¬ ((n : Int) = -1) := fun n => by omega
  split <;> rename_i h <;> simp [hneg, Driver.emit] at h ⊢ <;> exact h

/-- C7: on a board where both byte reads of the channel-1 brightness pair
succeed and return 0x00, `getBrightness` has no result: the divisor
`(msb << 8) | lsb` is zero. -/
theorem getBrightness_zero_divisor :
    (i2cReadByte halZeroBrightness drvOk LP8860_DISP_CL1_BRT_MSB 0).1 = true ∧
    (i2cReadByte halZeroBrightness drvOk LP8860_DISP_CL1_BRT_MSB 0).2.1 = 0 ∧
    (i2cReadByte halZeroBrightness
      (i2cReadByte halZeroBrightness drvOk LP8860_DISP_CL1_BRT_MSB 0).2.2
      LP8860_DISP_CL1_BRT_LSB 0).1 = true ∧
    (i2cReadByte halZeroBrightness
      (i2cReadByte halZeroBrightness drvOk LP8860_DISP_CL1_BRT_MSB 0).2.2
      LP8860_DISP_CL1_BRT_LSB 0).2.1 = 0 ∧
    getBrightness halZeroBrightness drvOk 0 = none := by
  decide

/-- C10: in a state whose status is not Success, `i2cWriteByte` issues no bus
write, leaves the object unchanged and returns false, and so do `setBrightness`
for every argument and `allowMaxCurrent`; and from any state, once the object
is in a failed state after the first `k` writes of either sequence, the call
ends in exactly that state: none of the later writes reaches the bus, and the
result is false; a refused write followed by any further byte writes leaves
that one refused write as the only addition to the history. -/
theorem byte_write_failure_sticky (hal : Hal) (s : Driver) (h : s.status ≠ MRAA_SUCCESS) :
    (∀ reg value, i2cWriteByte hal s reg value = (false, s)) ∧
    (∀ p, setBrightness hal s p = (false, s)) ∧
    allowMaxCurrent hal s = (false, s) ∧
    (∀ (t : Driver) (p : Int) (k : Nat),
      (writeSeq hal t ((brightnessWrites p).take k)).status ≠ MRAA_SUCCESS →
      setBrightness hal t p = (false, writeSeq hal t ((brightnessWrites p).take k))) ∧
    (∀ (t : Driver) (k : Nat),
      (writeSeq hal t (maxCurrentWrites.take k)).status ≠ MRAA_SUCCESS →
      allowMaxCurrent hal t = (false, writeSeq hal t (maxCurrentWrites.take k))) ∧
    (∀ (t : Driver) (reg value : Int) (later : List (Int × Int)),
      t.status = MRAA_SUCCESS →
      hal.i2c_write_byte_data t.log (u8 value) (u8 reg) ≠ MRAA_SUCCESS →
      (writeSeq hal t ((reg, value) :: later)).log
        = t.log ++ [.i2c_write_byte_data (u8 value) (u8 reg)
            (hal.i2c_write_byte_data t.log (u8 value) (u8 reg))]) := by
  have key : ∀ (t : Driver) (ws : List (Int × Int)) (k : Nat),
      (writeSeq hal t (ws.take k)).status ≠ MRAA_SUCCESS →
      writeSeq hal t ws = writeSeq hal t (ws.take k) := by
    intro t ws k hk
    conv_lhs => rw [← List.take_append_drop k ws]
    rw [writeSeq_append, writeSeq_failed hal _ _ hk]
  refine ⟨fun reg value => i2cWriteByte_failed hal s reg value h, fun p => ?_, ?_,
    fun t p k hk => ?_, fun t k hk => ?_, fun t reg value later ht hf => ?_⟩
  · rw [setBrightness_eq, writeSeq_failed hal s _ h]; simp [isOK, h]
  · rw [allowMaxCurrent_eq, writeSeq_failed hal s _ h]; simp [isOK, h]
  · rw [setBrightness_eq, key t _ k hk]; simp [isOK, hk]
  · rw [allowMaxCurrent_eq, key t _ k hk]; simp [isOK, hk]
  · have h1 : writeSeq hal t ((reg, value) :: later)
        = writeSeq hal (i2cWriteByte hal t reg value).2 later := rfl
    have h2 : (i2cWriteByte hal t reg value).2.status ≠ MRAA_SUCCESS := by
      simpa [i2cWriteByte, isOK, ht, Driver.emit] using hf
    rw [h1, writeSeq_failed hal _ _ h2]
    simp [i2cWriteByte, isOK, ht, Driver.emit]

/-- Witness of C10: a failed object is left untouched by `setBrightness 50`, and
on a board that refuses the third register write, `setBrightness 50` from a
good object stops after that write. -/
theorem byte_write_failure_sticky_witness :
    drvFailed.status ≠ MRAA_SUCCESS ∧
    setBrightness halThirdWriteFails drvFailed 50 = (false, drvFailed) ∧
    (writeSeq halThirdWriteFails drvOk ((brightnessWrites 50).take 3)).status ≠ MRAA_SUCCESS ∧
    (setBrightness halThirdWriteFails drvOk 50).2.log
      = [.i2c_write_byte_data 127 0 MRAA_SUCCESS, .i2c_write_byte_data 255 1 MRAA_SUCCESS,
         .i2c_write_byte_data 15 4 MRAA_ERROR_INVALID_RESOURCE] :=
  have h := byte_write_failure_sticky halThirdWriteFails drvFailed (by decide)
  ⟨by decide, h.2.1 50, by decide,
    (congrArg (fun r => r.2.log) (h.2.2.2.1 drvOk 50 3 (by decide))).trans (by decide)⟩

/-- C3, as stated, fails: on a board whose block read delivers only 24 bytes
(all zero), the buffer differs from the reference table, yet `loadEEPROM` writes
none of the unlock bytes. -/
theorem loadEEPROM_differs_without_unlock :
    (loadEEPROM_readBack halShortRead drvOk).1.take eepromTableSize ≠ eepromInitTable ∧
    (loadEEPROM halShortRead drvOk).2.log =
      [.i2c_write_byte_data LP8860_LOAD_EEPROM LP8860_EEPROM_CNTRL MRAA_SUCCESS,
       .usleep 100000,
       .i2c_write_byte LP8860_EEPROM_REG_0 MRAA_SUCCESS,
       .i2c_read 25 24 (List.replicate 24 0),
       .i2c_write (LP8860_EEPROM_REG_0 :: eepromInitTable) MRAA_SUCCESS,
       .i2c_write_byte_data LP8860_PROGRAM_EEPROM LP8860_EEPROM_CNTRL MRAA_SUCCESS,
       .usleep 200000,
       .i2c_write_byte_data 0 LP8860_EEPROM_CNTRL MRAA_SUCCESS,
       .i2c_write_byte_data LP8860_LOCK_EEPROM LP8860_EEPROM_UNLOCK MRAA_SUCCESS] ∧
    (∀ r, Event.i2c_write_byte_data LP8860_EEPROM_CODE_1 LP8860_EEPROM_UNLOCK r
        ∉ (loadEEPROM halShortRead drvOk).2.log) := by
  have h : (loadEEPROM halShortRead drvOk).2.log =
      [.i2c_write_byte_data LP8860_LOAD_EEPROM LP8860_EEPROM_CNTRL MRAA_SUCCESS,
       .usleep 100000,
       .i2c_write_byte LP8860_EEPROM_REG_0 MRAA_SUCCESS,
       .i2c_read 25 24 (List.replicate 24 0),
       .i2c_write (LP8860_EEPROM_REG_0 :: eepromInitTable) MRAA_SUCCESS,
       .i2c_write_byte_data LP8860_PROGRAM_EEPROM LP8860_EEPROM_CNTRL MRAA_SUCCESS,
       .usleep 200000,
       .i2c_write_byte_data 0 LP8860_EEPROM_CNTRL MRAA_SUCCESS,
       .i2c_write_byte_data LP8860_LOCK_EEPROM LP8860_EEPROM_UNLOCK MRAA_SUCCESS] := by
    decide
  refine ⟨by decide, h, fun r => ?_⟩
  rw [h]
  simp

/-- C3, amended: when the buffer read back equals the reference table,
`loadEEPROM` does nothing after the read-back, and nothing it put on the bus is
an unlock byte, a block write or the program command; when the buffer differs,
the status after the read-back is Success and every write succeeds, the
read-back is followed by exactly the programming sequence (three unlock bytes,
the table at 0x60, the program command, then clear and lock); when the buffer
differs and the status after the read-back is not Success, nothing put on the
bus after the read-back is an unlock code. -/
theorem loadEEPROM_programming (hal : Hal) (s : Driver) :
    ((loadEEPROM_readBack hal s).1.take eepromTableSize = eepromInitTable →
      (loadEEPROM hal s).2 = (loadEEPROM_readBack hal s).2 ∧
      ∃ evs, (loadEEPROM hal s).2.log = s.log ++ evs ∧ ∀ e ∈ evs, isProgrammingEvent e = false) ∧
    ((loadEEPROM_readBack hal s).1.take eepromTableSize ≠ eepromInitTable →
      (loadEEPROM_readBack hal s).2.status = MRAA_SUCCESS →
      (∀ h d c, hal.i2c_write_byte_data h d c = MRAA_SUCCESS) →
      (∀ h b, hal.i2c_write h b = MRAA_SUCCESS) →
      (loadEEPROM hal s).2.log = (loadEEPROM_readBack hal s).2.log ++ programmingEvents) ∧
    ((loadEEPROM_readBack hal s).1.take eepromTableSize ≠ eepromInitTable →
      (loadEEPROM_readBack hal s).2.status ≠ MRAA_SUCCESS →
      ∃ evs, (loadEEPROM hal s).2.log = (loadEEPROM_readBack hal s).2.log ++ evs ∧
        ∀ e ∈ evs, isUnlockCodeEvent e = false) := by
  refine ⟨fun heq => ⟨?_, ?_⟩, fun hne hs hb hw => ?_, fun hne hs => ?_⟩
  · simp [loadEEPROM, heq]
  · have h1 : (loadEEPROM hal s).2 = (loadEEPROM_readBack hal s).2 := by simp [loadEEPROM, heq]
    rw [h1]
    exact loadEEPROM_readBack_log hal s
  · have h1 : (loadEEPROM hal s).2 = loadEEPROM_program hal (loadEEPROM_readBack hal s).2 := by
      simp [loadEEPROM, hne]
    rw [h1]
    exact loadEEPROM_program_ok hal _ hs hb hw
  · have h1 : (loadEEPROM hal s).2 = loadEEPROM_program hal (loadEEPROM_readBack hal s).2 := by
      simp [loadEEPROM, hne]
    rw [h1]
    exact loadEEPROM_program_failed hal _ hs

/-- Witness of the amended C3 on three boards: one whose EEPROM already holds
the table, a blank one, and one whose block reads come up short. -/
theorem loadEEPROM_programming_witness :
    ((loadEEPROM_readBack halGood drvOk).1.take eepromTableSize = eepromInitTable ∧
      (loadEEPROM halGood drvOk).2 = (loadEEPROM_readBack halGood drvOk).2) ∧
    ((loadEEPROM_readBack halBlankEeprom drvOk).1.take eepromTableSize ≠ eepromInitTable ∧
      (loadEEPROM_readBack halBlankEeprom drvOk).2.status = MRAA_SUCCESS ∧
      (loadEEPROM halBlankEeprom drvOk).2.log
        = (loadEEPROM_readBack halBlankEeprom drvOk).2.log ++ programmingEvents) ∧
    ((loadEEPROM_readBack halShortRead drvOk).1.take eepromTableSize ≠ eepromInitTable ∧
      (loadEEPROM_readBack halShortRead drvOk).2.status ≠ MRAA_SUCCESS ∧
      ∃ evs, (loadEEPROM halShortRead drvOk).2.log
        = (loadEEPROM_readBack halShortRead drvOk).2.log ++ evs ∧
          ∀ e ∈ evs, isUnlockCodeEvent e = false) :=
  ⟨⟨by decide, ((loadEEPROM_programming halGood drvOk).1 (by decide)).1⟩,
    ⟨by decide, by decide,
      (loadEEPROM_programming halBlankEeprom drvOk).2.1 (by decide) (by decide)
        (fun _ _ _ => rfl) (fun _ _ => rfl)⟩,
    ⟨by decide, by decide,
      (loadEEPROM_programming halShortRead drvOk).2.2 (by decide) (by decide)⟩⟩

/-- C4, as stated, fails: on a blank board that refuses the block write, the
power pin reads low and is set high successfully, the EEPROM step fails, and
`setPowerOn` issues none of the current-limit writes: the last bus transaction
of the history is the refused table write. -/
theorem setPowerOn_skips_max_current :
    (isPowered halBlockWriteFails drvOk).1 = false ∧
    halBlockWriteFails.setGpio (isPowered halBlockWriteFails drvOk).2.log drvOk.pinPower 1
      = MRAA_SUCCESS ∧
    (setPowerOn halBlockWriteFails drvOk).2.log =
      [.getGpio 5 MRAA_SUCCESS 0, .setGpio 5 1 MRAA_SUCCESS,
       .i2c_write_byte_data 0 0 MRAA_SUCCESS, .i2c_write_byte_data 0 1 MRAA_SUCCESS,
       .i2c_write_byte_data 0 4 MRAA_SUCCESS, .i2c_write_byte_data 0 5 MRAA_SUCCESS,
       .i2c_write_byte_data 0 7 MRAA_SUCCESS, .i2c_write_byte_data 0 8 MRAA_SUCCESS,
       .i2c_write_byte_data 0 10 MRAA_SUCCESS, .i2c_write_byte_data 0 11 MRAA_SUCCESS,
       .i2c_write_byte_data 1 25 MRAA_SUCCESS, .usleep 100000,
       .i2c_write_byte 96 MRAA_SUCCESS, .i2c_read 25 25 (List.replicate 25 0),
       .i2c_write_byte_data 8 26 MRAA_SUCCESS, .i2c_write_byte_data 186 26 MRAA_SUCCESS,
       .i2c_write_byte_data 239 26 MRAA_SUCCESS,
       .i2c_write (96 :: eepromInitTable) MRAA_ERROR_INVALID_RESOURCE,
       .usleep 200000] ∧
    (∀ r, Event.i2c_write_byte_data 0x0F LP8860_DISP_CL1_CURR_MSB r
      ∉ (setPowerOn halBlockWriteFails drvOk).2.log) := by
  have h : (setPowerOn halBlockWriteFails drvOk).2.log =
      [.getGpio 5 MRAA_SUCCESS 0, .setGpio 5 1 MRAA_SUCCESS,
       .i2c_write_byte_data 0 0 MRAA_SUCCESS, .i2c_write_byte_data 0 1 MRAA_SUCCESS,
       .i2c_write_byte_data 0 4 MRAA_SUCCESS, .i2c_write_byte_data 0 5 MRAA_SUCCESS,
       .i2c_write_byte_data 0 7 MRAA_SUCCESS, .i2c_write_byte_data 0 8 MRAA_SUCCESS,
       .i2c_write_byte_data 0 10 MRAA_SUCCESS, .i2c_write_byte_data 0 11 MRAA_SUCCESS,
       .i2c_write_byte_data 1 25 MRAA_SUCCESS, .usleep 100000,
       .i2c_write_byte 96 MRAA_SUCCESS, .i2c_read 25 25 (List.replicate 25 0),
       .i2c_write_byte_data 8 26 MRAA_SUCCESS, .i2c_write_byte_data 186 26 MRAA_SUCCESS,
       .i2c_write_byte_data 239 26 MRAA_SUCCESS,
       .i2c_write (96 :: eepromInitTable) MRAA_ERROR_INVALID_RESOURCE,
       .usleep 200000] := by
    decide
  refine ⟨by decide, by decide, h, fun r => ?_⟩
  rw [h]
  simp

/-- C4, amended: when the power pin is not read as high and setting it high
succeeds, `setPowerOn` runs `setBrightness 0`, `loadEEPROM` and then
`allowMaxCurrent` whatever the first two returned, and its result is that of
`allowMaxCurrent`; the five current-limit writes are all issued, last in the
history, when the status left by the EEPROM step is Success and every byte
write succeeds, and none of them is issued when that status is not Success. -/
theorem setPowerOn_bringup (hal : Hal) (s : Driver)
    (hlow : (isPowered hal s).1 = false)
    (hset : hal.setGpio (isPowered hal s).2.log s.pinPower 1 = MRAA_SUCCESS) :
    setPowerOn hal s
      = allowMaxCurrent hal (loadEEPROM hal (setBrightness hal
          ((isPowered hal s).2.emit (.setGpio s.pinPower 1 MRAA_SUCCESS)) 0).2).2 ∧
    ((loadEEPROM hal (setBrightness hal
        ((isPowered hal s).2.emit (.setGpio s.pinPower 1 MRAA_SUCCESS)) 0).2).2.status = MRAA_SUCCESS →
      (∀ h d c, hal.i2c_write_byte_data h d c = MRAA_SUCCESS) →
      (setPowerOn hal s).2.log
        = (loadEEPROM hal (setBrightness hal
            ((isPowered hal s).2.emit (.setGpio s.pinPower 1 MRAA_SUCCESS)) 0).2).2.log
          ++ maxCurrentEvents) ∧
    ((loadEEPROM hal (setBrightness hal
        ((isPowered hal s).2.emit (.setGpio s.pinPower 1 MRAA_SUCCESS)) 0).2).2.status ≠ MRAA_SUCCESS →
      setPowerOn hal s
        = (false, (loadEEPROM hal (setBrightness hal
            ((isPowered hal s).2.emit (.setGpio s.pinPower 1 MRAA_SUCCESS)) 0).2).2)) := by
  have hpin : (isPowered hal s).2.pinPower = s.pinPower := by
    unfold isPowered; dsimp only; split <;> rfl
  have h1 : setPowerOn hal s
      = allowMaxCurrent hal (loadEEPROM hal (setBrightness hal
          ((isPowered hal s).2.emit (.setGpio s.pinPower 1 MRAA_SUCCESS)) 0).2).2 := by
    rw [← hpin] at hset ⊢
    simp only [setPowerOn, hlow, hset]
    simp [allowMaxCurrent]
  refine ⟨h1, fun hs hb => ?_, fun hs => ?_⟩
  · obtain ⟨-, -, u2, u3, -, -, u6, -, -, u9, -, -, u12, u15, u255, -⟩ := u8_regs
    rw [h1, allowMaxCurrent_eq, writeSeq_ok hal hb _ _ hs]
    simp [maxCurrentWrites, maxCurrentEvents, u2, u3, u6, u9, u12, u15, u255]
  · rw [h1, allowMaxCurrent_eq, writeSeq_failed hal _ _ hs]
    simp [isOK, hs]

/-- Witness of the amended C4 on the healthy board (all five writes are issued)
and on the blank board that refuses the block write (none is). -/
theorem setPowerOn_bringup_witness :
    ((isPowered halGood drvOk).1 = false ∧
      halGood.setGpio (isPowered halGood drvOk).2.log drvOk.pinPower 1 = MRAA_SUCCESS ∧
      (setPowerOn halGood drvOk).2.log
        = (loadEEPROM halGood (setBrightness halGood
            ((isPowered halGood drvOk).2.emit (.setGpio drvOk.pinPower 1 MRAA_SUCCESS)) 0).2).2.log
          ++ maxCurrentEvents) ∧
    ((isPowered halBlockWriteFails drvOk).1 = false ∧
      setPowerOn halBlockWriteFails drvOk
        = (false, (loadEEPROM halBlockWriteFails (setBrightness halBlockWriteFails
            ((isPowered halBlockWriteFails drvOk).2.emit
              (.setGpio drvOk.pinPower 1 MRAA_SUCCESS)) 0).2).2)) :=
  ⟨⟨by decide, by decide,
      (setPowerOn_bringup halGood drvOk (by decide) (by decide)).2.1 (by decide)
        (fun _ _ _ => rfl)⟩,
    ⟨by decide,
      (setPowerOn_bringup halBlockWriteFails drvOk (by decide) (by decide)).2.2 (by decide)⟩⟩

/-- C6, as stated, fails: on a board whose block reads come up one byte short,
`i2cReadByte` from a good object attempts three bus transactions, the last of
which (the read) fails, and the status is still Success. -/
theorem i2cReadByte_status_stale :
    (i2cReadByte halShortRead drvOk LP8860_DISP_CL1_BRT_MSB 0).1 = false ∧
    lastTx (i2cReadByte halShortRead drvOk LP8860_DISP_CL1_BRT_MSB 0).2.2.log = some false ∧
    (i2cReadByte halShortRead drvOk LP8860_DISP_CL1_BRT_MSB 0).2.2.status = MRAA_SUCCESS ∧
    ¬ ((i2cReadByte halShortRead drvOk LP8860_DISP_CL1_BRT_MSB 0).2.2.status = MRAA_SUCCESS ↔
        lastTx (i2cReadByte halShortRead drvOk LP8860_DISP_CL1_BRT_MSB 0).2.2.log = some true) := by
  decide

/-- C6, amended: the status is Success iff the last transaction attempted on the
bus succeeded after `i2cWriteByte` called in a Success state (the only case in
which it attempts a write), after `i2cWriteBuffer` with a length of at most 32,
after `i2cReadBuffer` and after `loadEEPROM`; `i2cWriteByte`, `setBrightness` and
`allowMaxCurrent` preserve that property; `i2cReadByte` and `isAvailable` attempt
bus transactions and leave the status as it was. -/
theorem status_tracks_bus (hal : Hal) (s : Driver) :
    (s.status = MRAA_SUCCESS →
      ∀ reg value, statusReflectsBus (i2cWriteByte hal s reg value).2 = true) ∧
    (∀ reg buf length, length ≤ MAX_I2C_WRITE_SIZE →
      statusReflectsBus (i2cWriteBuffer hal s reg buf length).2 = true) ∧
    (∀ reg buf length, statusReflectsBus (i2cReadBuffer hal s reg buf length).2.2 = true) ∧
    statusReflectsBus (loadEEPROM hal s).2 = true ∧
    (statusReflectsBus s = true →
      (∀ reg value, statusReflectsBus (i2cWriteByte hal s reg value).2 = true) ∧
      (∀ p, statusReflectsBus (setBrightness hal s p).2 = true) ∧
      statusReflectsBus (allowMaxCurrent hal s).2 = true) ∧
    (∀ reg value, (i2cReadByte hal s reg value).2.2.status = s.status ∧
      lastTx (i2cReadByte hal s reg value).2.2.log
        = some (i2cReadByte hal s reg value).1) ∧
    ((isAvailable hal s).2.status = s.status ∧ (isAvailable hal s).2.log ≠ s.log) := by
  refine ⟨fun h reg value => inv_i2cWriteByte_attempt hal s reg value h,
    fun reg buf length h => inv_i2cWriteBuffer hal s reg buf length h,
    fun reg buf length => inv_i2cReadBuffer hal s reg buf length,
    inv_loadEEPROM hal s,
    fun h => ⟨fun reg value => inv_i2cWriteByte hal s reg value h,
      fun p => inv_setBrightness hal s p h, inv_allowMaxCurrent hal s h⟩,
    fun reg value => ?_, ?_⟩
  · simp [i2cReadByte, Driver.emit, lastTx, List.foldl_append, txOutcome]
  · unfold isAvailable
    dsimp only
    split <;> simp [Driver.emit]

/-- Witness of the amended C6: on the healthy board the status reflects the bus
after a byte write and after `setBrightness 50`; on the board whose block reads
come up short, `i2cReadByte` leaves the status at Success. -/
theorem status_tracks_bus_witness :
    drvOk.status = MRAA_SUCCESS ∧
    statusReflectsBus (i2cWriteByte halGood drvOk 0 0).2 = true ∧
    ((32 : Int) ≤ MAX_I2C_WRITE_SIZE ∧
      statusReflectsBus
        (i2cWriteBuffer halBlockWriteFails drvOk 0x60 (List.replicate 32 0) 32).2 = true) ∧
    (statusReflectsBus (i2cWriteByte halThirdWriteFails drvOk 0 0).2 = true ∧
      statusReflectsBus (setBrightness halThirdWriteFails
        (i2cWriteByte halThirdWriteFails drvOk 0 0).2 50).2 = true) ∧
    (i2cReadByte halShortRead drvOk 0 0).2.2.status = drvOk.status :=
  ⟨rfl, (status_tracks_bus halGood drvOk).1 rfl 0 0,
    ⟨by decide, (status_tracks_bus halBlockWriteFails drvOk).2.1 0x60 _ 32 (by decide)⟩,
    ⟨by decide,
      ((status_tracks_bus halThirdWriteFails (i2cWriteByte halThirdWriteFails drvOk 0 0).2).2.2.2.2.1
        (by decide)).2.1 50⟩,
    ((status_tracks_bus halShortRead drvOk).2.2.2.2.2.1 0 0).1⟩

end LP8860
